import Mathlib

/-!
Shallow embedding of the cryfs blockstore layers:
the low-level `EncryptedBlockStore` (`src/blockstore/rust/blockstore/src/blockstore/low_level/encrypted/mod.rs`)
and the high-level `LockingBlockStore` (`src/blockstore/rust/blockstore/src/blockstore/high_level/mod.rs`).

Bytes are modelled as `List Nat`, block ids as `Nat` (the source uses an
opaque 16-byte id with byte-wise equality, which only needs decidable
equality here). Fallible Rust code returning `anyhow::Result` is embedded
as `Except String`; a Rust panic is embedded as the `none` case of an
outer `Option`.
-/

namespace Cryfs

abbrev BlockId := Nat

/-- Platform endianness. The source constant `FORMAT_VERSION_HEADER` is
built with `1u16.to_ne_bytes()`, whose value depends on the platform. -/
inductive Endianness where
  | little
  | big
deriving DecidableEq, Repr

/-- `u16::to_le_bytes`: little-endian byte encoding of a 16-bit value. -/
def u16_to_le_bytes (n : Nat) : List Nat :=
  [n % 256, (n / 256) % 256]

/-- `u16::to_be_bytes`: big-endian byte encoding of a 16-bit value. -/
def u16_to_be_bytes (n : Nat) : List Nat :=
  [(n / 256) % 256, n % 256]

/-- `u16::to_ne_bytes`: native-endian byte encoding, parametrised by the
platform endianness. -/
def u16_to_ne_bytes (e : Endianness) (n : Nat) : List Nat :=
  match e with
  | .little => u16_to_le_bytes n
  | .big => u16_to_be_bytes n

/-- `const FORMAT_VERSION_HEADER: &[u8; 2] = &1u16.to_ne_bytes();`
(encrypted/mod.rs line 15). -/
def FORMAT_VERSION_HEADER (e : Endianness) : List Nat :=
  u16_to_ne_bytes e 1

theorem FORMAT_VERSION_HEADER_length (e : Endianness) :
    (FORMAT_VERSION_HEADER e).length = 2 := by
  cases e <;> rfl

/-- Modelled from the spec: the `Cipher` capability consumed by the core
(spec section 6): `encrypt(Data) -> Result<Data>`, `decrypt(Data) ->
Result<Data>`, associated constant `CIPHERTEXT_OVERHEAD`. Cipher
implementations are out of scope of the spec; the encrypted layer only
uses this interface. -/
structure Cipher where
  CIPHERTEXT_OVERHEAD : Nat
  encrypt : List Nat → Except String (List Nat)
  decrypt : List Nat → Except String (List Nat)

/-- `_prepend_header` (encrypted/mod.rs lines 138-146): grows the visible
region of the data buffer by 2 bytes at the front and overwrites them with
`FORMAT_VERSION_HEADER`, so the visible bytes become the header followed
by the previous bytes. The grow-in-place step can only panic when the
buffer was allocated without the prefix reservation, a buffer-layout
concern (spec section 4.A) not represented in the byte-list model;
`allocate` always reserves it. -/
def _prepend_header (e : Endianness) (data : List Nat) : List Nat :=
  FORMAT_VERSION_HEADER e ++ data

/-- `_check_and_remove_header` (encrypted/mod.rs lines 126-136). If the
data does not start with `FORMAT_VERSION_HEADER`, the error path formats
`&data[..FORMAT_VERSION_HEADER.len()]` into the message, which panics when
the data is shorter than 2 bytes; `none` models that panic. Otherwise the
header is stripped via `shrink_to_subregion(2..)`. -/
def _check_and_remove_header (e : Endianness) (data : List Nat) :
    Option (Except String (List Nat)) :=
  if (FORMAT_VERSION_HEADER e).isPrefixOf data then
    some (Except.ok (data.drop (FORMAT_VERSION_HEADER e).length))
  else if 2 ≤ data.length then
    some (Except.error "Could not parse encrypted block. Wrong FORMAT_VERSION_HEADER")
  else
    none

/-- `EncryptedBlockStore::_encrypt` (encrypted/mod.rs lines 113-117):
encrypt with the cipher, then prepend the format version header. -/
def _encrypt (e : Endianness) (c : Cipher) (plaintext : List Nat) :
    Except String (List Nat) :=
  match c.encrypt plaintext with
  | Except.error msg => Except.error msg
  | Except.ok ciphertext => Except.ok (_prepend_header e ciphertext)

/-- `EncryptedBlockStore::_decrypt` (encrypted/mod.rs lines 119-123):
check and strip the header, then decrypt with the cipher. The outer
`none` propagates the panic of `_check_and_remove_header`. -/
def _decrypt (e : Endianness) (c : Cipher) (ciphertext : List Nat) :
    Option (Except String (List Nat)) :=
  match _check_and_remove_header e ciphertext with
  | none => none
  | some (Except.error msg) => some (Except.error msg)
  | some (Except.ok stripped) => some (c.decrypt stripped)

/-- Modelled from the spec: an underlying low-level `BlockStore`
(spec section 4.B) in its in-memory form — `load` returns exactly the
bytes last stored under an id. The encrypted layer wraps an arbitrary
such store. -/
def BaseStore := BlockId → Option (List Nat)

/-- Store bytes under an id in the underlying store. -/
def BaseStore.store (s : BaseStore) (id : BlockId) (data : List Nat) : BaseStore :=
  fun i => if i = id then some data else s i

/-- Modelled from the spec: the underlying `remove(id) -> Removed|NotFound`;
returns whether something was removed, and the new state. -/
def BaseStore.remove (s : BaseStore) (id : BlockId) : Bool × BaseStore :=
  match s id with
  | some _ => (true, fun i => if i = id then none else s i)
  | none => (false, s)

/-- Low-level `TryCreateResult` (blockstore/low_level). -/
inductive TryCreateResult where
  | SuccessfullyCreated
  | NotCreatedBecauseBlockIdAlreadyExists
deriving DecidableEq, Repr, BEq

/-- Low-level / high-level `RemoveResult`. -/
inductive RemoveResult where
  | SuccessfullyRemoved
  | NotRemovedBecauseItDoesntExist
deriving DecidableEq, Repr, BEq

/-- `EncryptedBlockStore::load` (encrypted/mod.rs lines 35-41): load the
stored bytes from the underlying store, and decrypt them (header check
included) when present. `none` propagates the decrypt-path panic. -/
def EncryptedBlockStore.load (e : Endianness) (c : Cipher) (s : BaseStore)
    (id : BlockId) : Option (Except String (Option (List Nat))) :=
  match s id with
  | none => some (Except.ok none)
  | some data =>
    match _decrypt e c data with
    | none => none
    | some (Except.error msg) => some (Except.error msg)
    | some (Except.ok plaintext) => some (Except.ok (some plaintext))

/-- `EncryptedBlockStore::store_optimized` (encrypted/mod.rs lines 99-104):
encrypt the plaintext (header prepended) and store the result through the
underlying store. -/
def EncryptedBlockStore.store_optimized (e : Endianness) (c : Cipher)
    (s : BaseStore) (id : BlockId) (data : List Nat) : Except String BaseStore :=
  match _encrypt e c data with
  | Except.error msg => Except.error msg
  | Except.ok ciphertext => Except.ok (s.store id ciphertext)

/-- `EncryptedBlockStore::try_create_optimized` (encrypted/mod.rs lines
88-97): encrypt, then try-create through the underlying store (modelled
from the spec for the in-memory underlying store: create succeeds iff the
id is free). -/
def EncryptedBlockStore.try_create_optimized (e : Endianness) (c : Cipher)
    (s : BaseStore) (id : BlockId) (data : List Nat) :
    Except String (TryCreateResult × BaseStore) :=
  match _encrypt e c data with
  | Except.error msg => Except.error msg
  | Except.ok ciphertext =>
    match s id with
    | some _ => Except.ok (TryCreateResult.NotCreatedBecauseBlockIdAlreadyExists, s)
    | none => Except.ok (TryCreateResult.SuccessfullyCreated, s.store id ciphertext)

/-- `u64::checked_sub`. -/
def checked_sub (a b : Nat) : Option Nat :=
  if b ≤ a then some (a - b) else none

/-- `EncryptedBlockStore::block_size_from_physical_block_size`
(encrypted/mod.rs lines 51-57): subtract the header length from the given
physical size, then the cipher overhead, erroring when either subtraction
underflows. The underlying store is not consulted. -/
def EncryptedBlockStore.block_size_from_physical_block_size (e : Endianness)
    (CIPHERTEXT_OVERHEAD : Nat) (block_size : Nat) : Except String Nat :=
  match checked_sub block_size (FORMAT_VERSION_HEADER e).length with
  | none => Except.error "Physical block size is too small to hold even the FORMAT_VERSION_HEADER"
  | some ciphertext_size =>
    match checked_sub ciphertext_size CIPHERTEXT_OVERHEAD with
    | none => Except.error "Physical block size is too small"
    | some n => Except.ok n

/-- The spec-side reading of claim C5: first ask the underlying store to
translate the physical size to its usable size `inner(p)`, then subtract
the header length and cipher overhead from that. Written from the spec
words, to be compared against the source definition above. -/
def block_size_from_physical_block_size_spec (inner : Nat → Except String Nat)
    (e : Endianness) (CIPHERTEXT_OVERHEAD : Nat) (block_size : Nat) :
    Except String Nat :=
  match inner block_size with
  | Except.error msg => Except.error msg
  | Except.ok inner_size =>
    match checked_sub inner_size (FORMAT_VERSION_HEADER e).length with
    | none => Except.error "Physical block size is too small to hold even the FORMAT_VERSION_HEADER"
    | some ciphertext_size =>
      match checked_sub ciphertext_size CIPHERTEXT_OVERHEAD with
      | none => Except.error "Physical block size is too small"
      | some n => Except.ok n

/-- A trivial cipher used for concrete witnesses: zero overhead, identity
encryption and decryption. -/
def idCipher : Cipher where
  CIPHERTEXT_OVERHEAD := 0
  encrypt := fun d => Except.ok d
  decrypt := fun d => Except.ok d

/-- `EncryptedBlockStore::num_blocks` (encrypted/mod.rs lines 43-45):
pure delegation to the underlying store. The underlying store is kept
abstract as a function on its own state type. -/
def EncryptedBlockStore.num_blocks {σ : Type}
    (underlying_num_blocks : σ → Except String Nat) (s : σ) :
    Except String Nat :=
  underlying_num_blocks s

/-- `EncryptedBlockStore::all_blocks` (encrypted/mod.rs lines 59-61):
pure delegation to the underlying store; the stream of ids is modelled as
the list of ids it yields. -/
def EncryptedBlockStore.all_blocks {σ : Type}
    (underlying_all_blocks : σ → Except String (List BlockId)) (s : σ) :
    Except String (List BlockId) :=
  underlying_all_blocks s

/-- `EncryptedBlockStore::remove` (encrypted/mod.rs lines 68-70): pure
delegation to the underlying store. -/
def EncryptedBlockStore.remove {σ : Type}
    (underlying_remove : σ → BlockId → Except String (RemoveResult × σ))
    (s : σ) (id : BlockId) : Except String (RemoveResult × σ) :=
  underlying_remove s id

/-- `CacheEntryState` (high_level/cache). -/
inductive CacheEntryState where
  | Clean
  | Dirty
deriving DecidableEq, Repr, BEq

/-- `BlockBaseStoreState` (high_level/cache). -/
inductive BlockBaseStoreState where
  | ExistsInBaseStore
  | DoesntExistInBaseStore
deriving DecidableEq, Repr, BEq

/-- Modelled from the spec: a cache entry `present(data, state, base_state)`
(spec section 3, CacheEntry); the cache implementation itself is not part
of the given sources, only its interface contract. -/
structure CacheEntry where
  data : List Nat
  state : CacheEntryState
  base_state : BlockBaseStoreState
deriving DecidableEq, Repr

/-- State of a `LockingBlockStore` (high_level/mod.rs lines 73-80): the
per-id cache (absent ids map to `none`) over a base store. The per-id
locking itself is a concurrency mechanism with no sequential content; the
operations below are the bodies that run under the per-id lock. -/
structure LockingBlockStoreState where
  cache : BlockId → Option CacheEntry
  base : BaseStore

/-- `LockingBlockStore::try_create` (high_level/mod.rs lines 112-129):
under the per-id lock, reject when the cache has an entry for the id or
the base store already has the id; otherwise install the data as a
`Dirty` entry marked `DoesntExistInBaseStore`. -/
def LockingBlockStore.try_create (st : LockingBlockStoreState) (id : BlockId)
    (data : List Nat) : TryCreateResult × LockingBlockStoreState :=
  match st.cache id with
  | some _ => (TryCreateResult.NotCreatedBecauseBlockIdAlreadyExists, st)
  | none =>
    if (st.base id).isSome then
      (TryCreateResult.NotCreatedBecauseBlockIdAlreadyExists, st)
    else
      (TryCreateResult.SuccessfullyCreated,
       { st with
         cache := fun i =>
           if i = id then
             some ⟨data, CacheEntryState.Dirty, BlockBaseStoreState.DoesntExistInBaseStore⟩
           else st.cache i })

/-- `LockingBlockStore::remove` (high_level/mod.rs lines 156-188), split
into its two internal booleans: `(removed_from_cache,
removed_from_base_store, final state)`. If the id is cached, drop the
cache entry and schedule a base-store delete only when the entry said
`ExistsInBaseStore`; if not cached, always delete-through. -/
def LockingBlockStore.remove_details (st : LockingBlockStoreState)
    (id : BlockId) : Bool × Bool × LockingBlockStoreState :=
  let step :=
    match st.cache id with
    | some cache_entry =>
      (true, decide (cache_entry.base_state = BlockBaseStoreState.ExistsInBaseStore),
       { st with cache := fun i => if i = id then none else st.cache i })
    | none => (false, true, st)
  let removed_from_cache := step.1
  let should_remove_from_base_store := step.2.1
  let st1 := step.2.2
  let base_step :=
    if should_remove_from_base_store then BaseStore.remove st1.base id
    else (false, st1.base)
  (removed_from_cache, base_step.1, { st1 with base := base_step.2 })

/-- `LockingBlockStore::remove` result (high_level/mod.rs lines 183-187):
`SuccessfullyRemoved` iff the cache path or the base-store path removed
something. -/
def LockingBlockStore.remove (st : LockingBlockStoreState) (id : BlockId) :
    RemoveResult × LockingBlockStoreState :=
  let details := LockingBlockStore.remove_details st id
  (if details.1 || details.2.1 then RemoveResult.SuccessfullyRemoved
   else RemoveResult.NotRemovedBecauseItDoesntExist,
   details.2.2)

/-- `LockingBlockStore::all_blocks` (high_level/mod.rs lines 209-221):
emit the snapshot of cached ids, then the underlying stream filtered by
membership in that snapshot. The cache-key snapshot and the underlying
stream are modelled as the lists of ids they yield. -/
def LockingBlockStore.all_blocks (blocks_in_cache : List BlockId)
    (blocks_in_base_store : List BlockId) : List BlockId :=
  blocks_in_cache ++
    blocks_in_base_store.filter (fun block_id => !(blocks_in_cache.contains block_id))

/-! ## Theorems for the claims -/

/-- C1: for every BlockId `b` and every plaintext `P` of length at most
`max_plaintext_block_size`, storing `P` under `b` through the
`EncryptedBlockStore` and then loading `b` returns `Some P`:
encrypt-prepend-header on store followed by check-header-then-decrypt on
load round-trips the payload, under the hypothesis that the paired
cipher's decrypt inverts its encrypt. -/
theorem C1_encrypted_store_load_roundtrip (e : Endianness) (c : Cipher)
    (s : BaseStore) (b : BlockId) (P ct : List Nat)
    (max_plaintext_block_size : Nat)
    (_hlen : P.length ≤ max_plaintext_block_size)
    (henc : c.encrypt P = Except.ok ct)
    (hinv : ∀ pt ctx, c.encrypt pt = Except.ok ctx → c.decrypt ctx = Except.ok pt) :
    EncryptedBlockStore.store_optimized e c s b P
        = Except.ok (BaseStore.store s b (_prepend_header e ct))
    ∧ EncryptedBlockStore.load e c (BaseStore.store s b (_prepend_header e ct)) b
        = some (Except.ok (some P)) := by
  constructor
  · simp [EncryptedBlockStore.store_optimized, _encrypt, henc]
  · have hpre : (FORMAT_VERSION_HEADER e).isPrefixOf (_prepend_header e ct) = true := by
      simp [_prepend_header, List.isPrefixOf_iff_prefix]
    simp [EncryptedBlockStore.load, BaseStore.store, _decrypt,
      _check_and_remove_header, hpre, _prepend_header, List.drop_left,
      hinv P ct henc]

/-- Witness for C1 at a concrete input: the identity cipher, the empty
base store, block id 0 and plaintext `[7, 7]`. -/
theorem C1_encrypted_store_load_roundtrip_witness :
    EncryptedBlockStore.store_optimized Endianness.little idCipher (fun _ => none) 0 [7, 7]
        = Except.ok (BaseStore.store (fun _ => none) 0 (_prepend_header Endianness.little [7, 7]))
    ∧ EncryptedBlockStore.load Endianness.little idCipher
        (BaseStore.store (fun _ => none) 0 (_prepend_header Endianness.little [7, 7])) 0
        = some (Except.ok (some [7, 7])) :=
  C1_encrypted_store_load_roundtrip Endianness.little idCipher (fun _ => none)
    0 [7, 7] [7, 7] 2 (by decide) rfl
    (fun pt ctx h => by
      simp only [idCipher] at h ⊢
      simp only [Except.ok.injEq] at h
      simp [h])

/-- C2 counterexample: the source builds the header with
`1u16.to_ne_bytes()`, which is native-endian. On a big-endian platform a
persisted block starts with `[0, 1]`, which is not the little-endian
encoding `[1, 0]` of 1 — so the header is not little-endian on every
platform. -/
theorem C2_counterexample :
    EncryptedBlockStore.store_optimized Endianness.big idCipher (fun _ => none) 0 [5]
        = Except.ok (BaseStore.store (fun _ => none) 0 [0, 1, 5])
    ∧ List.isPrefixOf [1, 0] [0, 1, 5] = false
    ∧ FORMAT_VERSION_HEADER Endianness.big ≠ u16_to_le_bytes 1 :=
  ⟨rfl, by decide, by decide⟩

/-- C2 amended: every block persisted by the `EncryptedBlockStore` begins
with the 2-byte native-endian encoding of the integer 1
(`1u16.to_ne_bytes()`); on a little-endian platform this equals the
little-endian encoding `[1, 0]`. -/
theorem C2_persisted_header_native_endian (e : Endianness) (c : Cipher)
    (s : BaseStore) (id : BlockId) (P ct : List Nat)
    (henc : c.encrypt P = Except.ok ct) :
    (∃ s', EncryptedBlockStore.store_optimized e c s id P = Except.ok s'
       ∧ s' id = some (u16_to_ne_bytes e 1 ++ ct)
       ∧ (FORMAT_VERSION_HEADER e).isPrefixOf (u16_to_ne_bytes e 1 ++ ct) = true)
    ∧ (s id = none →
        ∃ s', EncryptedBlockStore.try_create_optimized e c s id P
            = Except.ok (TryCreateResult.SuccessfullyCreated, s')
          ∧ s' id = some (u16_to_ne_bytes e 1 ++ ct))
    ∧ FORMAT_VERSION_HEADER Endianness.little = [1, 0] := by
  refine ⟨⟨BaseStore.store s id (_prepend_header e ct), ?_, ?_, ?_⟩, ?_, rfl⟩
  · simp [EncryptedBlockStore.store_optimized, _encrypt, henc]
  · simp [BaseStore.store, _prepend_header, FORMAT_VERSION_HEADER]
  · simp [List.isPrefixOf_iff_prefix, FORMAT_VERSION_HEADER]
  · intro hnone
    refine ⟨BaseStore.store s id (_prepend_header e ct), ?_, ?_⟩
    · simp [EncryptedBlockStore.try_create_optimized, _encrypt, henc, hnone]
    · simp [BaseStore.store, _prepend_header, FORMAT_VERSION_HEADER]

/-- Witness for the amended C2 at a concrete input: little-endian
platform, identity cipher, empty base store, id 0, plaintext `[9]`. -/
theorem C2_persisted_header_native_endian_witness :
    (∃ s', EncryptedBlockStore.store_optimized Endianness.little idCipher (fun _ => none) 0 [9]
        = Except.ok s'
       ∧ s' 0 = some (u16_to_ne_bytes Endianness.little 1 ++ [9])
       ∧ (FORMAT_VERSION_HEADER Endianness.little).isPrefixOf
           (u16_to_ne_bytes Endianness.little 1 ++ [9]) = true)
    ∧ ((fun (_ : BlockId) => (none : Option (List Nat))) 0 = none →
        ∃ s', EncryptedBlockStore.try_create_optimized Endianness.little idCipher
            (fun _ => none) 0 [9]
            = Except.ok (TryCreateResult.SuccessfullyCreated, s')
          ∧ s' 0 = some (u16_to_ne_bytes Endianness.little 1 ++ [9]))
    ∧ FORMAT_VERSION_HEADER Endianness.little = [1, 0] :=
  C2_persisted_header_native_endian Endianness.little idCipher (fun _ => none) 0 [9] [9] rfl

/-- C5 counterexample: the source computes the usable size directly from
the physical size `p` and never calls the underlying store, so for an
underlying store whose own translation is not the identity (here
`inner(q) = q - 4`) the result differs from `inner(p) - 2 - overhead`:
with overhead 0 and `p = 10` the code returns 8 while the claimed formula
gives 4. -/
theorem C5_counterexample :
    EncryptedBlockStore.block_size_from_physical_block_size Endianness.little 0 10
        = Except.ok 8
    ∧ block_size_from_physical_block_size_spec (fun q => Except.ok (q - 4))
        Endianness.little 0 10 = Except.ok 4
    ∧ EncryptedBlockStore.block_size_from_physical_block_size Endianness.little 0 10
        ≠ block_size_from_physical_block_size_spec (fun q => Except.ok (q - 4))
            Endianness.little 0 10 := by
  refine ⟨rfl, rfl, ?_⟩
  intro h
  rw [show EncryptedBlockStore.block_size_from_physical_block_size Endianness.little 0 10
      = Except.ok 8 from rfl,
    show block_size_from_physical_block_size_spec (fun q => Except.ok (q - 4))
      Endianness.little 0 10 = Except.ok 4 from rfl] at h
  simp at h

/-- C5 amended: `block_size_from_physical_block_size(p)` is computed
directly from the physical block size `p` — it agrees with the spec
formula only for an identity underlying translation — and equals
`p - 2 - CIPHERTEXT_OVERHEAD`, erroring exactly when that subtraction
would underflow. -/
theorem C5_block_size_direct (e : Endianness) (overhead p : Nat) :
    EncryptedBlockStore.block_size_from_physical_block_size e overhead p
        = block_size_from_physical_block_size_spec (fun q => Except.ok q) e overhead p
    ∧ (2 + overhead ≤ p →
        EncryptedBlockStore.block_size_from_physical_block_size e overhead p
          = Except.ok (p - 2 - overhead))
    ∧ (p < 2 + overhead →
        ∃ msg, EncryptedBlockStore.block_size_from_physical_block_size e overhead p
          = Except.error msg) := by
  refine ⟨rfl, ?_, ?_⟩
  · intro h
    have h2 : 2 ≤ p := by omega
    have h3 : overhead ≤ p - 2 := by omega
    simp [EncryptedBlockStore.block_size_from_physical_block_size, checked_sub,
      FORMAT_VERSION_HEADER_length, h2, h3]
  · intro h
    by_cases h2 : 2 ≤ p
    · have h3 : ¬ overhead ≤ p - 2 := by omega
      exact ⟨"Physical block size is too small",
        by simp [EncryptedBlockStore.block_size_from_physical_block_size, checked_sub,
          FORMAT_VERSION_HEADER_length, h2, h3]⟩
    · exact ⟨"Physical block size is too small to hold even the FORMAT_VERSION_HEADER",
        by simp [EncryptedBlockStore.block_size_from_physical_block_size, checked_sub,
          FORMAT_VERSION_HEADER_length, h2]⟩

/-- Witness for the amended C5 at concrete inputs: overhead 3 with
physical size 10 yields 5; overhead 3 with physical size 4 errors. -/
theorem C5_block_size_direct_witness :
    EncryptedBlockStore.block_size_from_physical_block_size Endianness.little 3 10
        = Except.ok 5
    ∧ ∃ msg, EncryptedBlockStore.block_size_from_physical_block_size Endianness.little 3 4
        = Except.error msg :=
  ⟨(C5_block_size_direct Endianness.little 3 10).2.1 (by decide),
   (C5_block_size_direct Endianness.little 3 4).2.2 (by decide)⟩

/-- C6 counterexample: a stored 1-byte block `[0]` does not begin with the
format version header, but `load` does not return an error for it — the
error-message formatting slices `data[..2]` and panics (modelled as
`none`). -/
theorem C6_counterexample :
    BaseStore.store (fun _ => none) 0 [0] 0 = some [0]
    ∧ (FORMAT_VERSION_HEADER Endianness.little).isPrefixOf [0] = false
    ∧ EncryptedBlockStore.load Endianness.little idCipher
        (BaseStore.store (fun _ => none) 0 [0]) 0 = none
    ∧ ¬ ∃ msg, EncryptedBlockStore.load Endianness.little idCipher
        (BaseStore.store (fun _ => none) 0 [0]) 0 = some (Except.error msg) := by
  refine ⟨rfl, by decide, rfl, ?_⟩
  rintro ⟨msg, h⟩
  rw [show EncryptedBlockStore.load Endianness.little idCipher
      (BaseStore.store (fun _ => none) 0 [0]) 0 = none from rfl] at h
  exact Option.noConfusion h

/-- C6 amended: for every stored block whose bytes do not begin with the
format version header, `load` returns an error when the stored bytes are
at least 2 long, and panics (modelled as `none`) when they are shorter;
in no case does it return `Ok(None)` or a decrypted payload — no stored
block is ever accepted as unprefixed plaintext. -/
theorem C6_load_header_mismatch (e : Endianness) (c : Cipher) (s : BaseStore)
    (id : BlockId) (data : List Nat) (hs : s id = some data)
    (hpre : (FORMAT_VERSION_HEADER e).isPrefixOf data = false) :
    (2 ≤ data.length →
      ∃ msg, EncryptedBlockStore.load e c s id = some (Except.error msg))
    ∧ (data.length < 2 → EncryptedBlockStore.load e c s id = none)
    ∧ (∀ r, EncryptedBlockStore.load e c s id ≠ some (Except.ok r)) := by
  have hcheck : _check_and_remove_header e data
      = if 2 ≤ data.length then
          some (Except.error "Could not parse encrypted block. Wrong FORMAT_VERSION_HEADER")
        else none := by
    simp [_check_and_remove_header, hpre]
  refine ⟨?_, ?_, ?_⟩
  · intro hlen
    exact ⟨"Could not parse encrypted block. Wrong FORMAT_VERSION_HEADER",
      by simp [EncryptedBlockStore.load, hs, _decrypt, hcheck, hlen]⟩
  · intro hlen
    have h2 : ¬ 2 ≤ data.length := by omega
    simp [EncryptedBlockStore.load, hs, _decrypt, hcheck, h2]
  · intro r hr
    by_cases hlen : 2 ≤ data.length
    · simp [EncryptedBlockStore.load, hs, _decrypt, hcheck, hlen] at hr
    · simp [EncryptedBlockStore.load, hs, _decrypt, hcheck, hlen] at hr

/-- Witness for the amended C6 at a concrete input: a stored block
`[9, 9]` (length 2, wrong header) makes `load` error and never yields a
payload. -/
theorem C6_load_header_mismatch_witness :
    (∃ msg, EncryptedBlockStore.load Endianness.little idCipher
        (BaseStore.store (fun _ => none) 0 [9, 9]) 0 = some (Except.error msg))
    ∧ (∀ r, EncryptedBlockStore.load Endianness.little idCipher
        (BaseStore.store (fun _ => none) 0 [9, 9]) 0 ≠ some (Except.ok r)) :=
  ⟨(C6_load_header_mismatch Endianness.little idCipher
      (BaseStore.store (fun _ => none) 0 [9, 9]) 0 [9, 9] rfl (by decide)).1 (by decide),
   (C6_load_header_mismatch Endianness.little idCipher
      (BaseStore.store (fun _ => none) 0 [9, 9]) 0 [9, 9] rfl (by decide)).2.2⟩

/-- C9: on any input of length at least 2 the header check is total (it
never hits the panicking slice in the error-message formatting): it
returns the input with exactly the first 2 bytes removed when the input
begins with the format version header, and an error otherwise; inputs
shorter than 2 bytes hit the panic, so the length precondition is
required for totality. -/
theorem C9_check_and_remove_header_total (e : Endianness) (data : List Nat)
    (h : 2 ≤ data.length) :
    ((FORMAT_VERSION_HEADER e).isPrefixOf data = true →
      _check_and_remove_header e data = some (Except.ok (data.drop 2)))
    ∧ ((FORMAT_VERSION_HEADER e).isPrefixOf data = false →
      ∃ msg, _check_and_remove_header e data = some (Except.error msg))
    ∧ (∃ r, _check_and_remove_header e data = some r)
    ∧ (∀ short : List Nat, short.length < 2 →
        _check_and_remove_header e short = none) := by
  refine ⟨?_, ?_, ?_, ?_⟩
  · intro hp
    simp [_check_and_remove_header, hp, FORMAT_VERSION_HEADER_length]
  · intro hp
    exact ⟨"Could not parse encrypted block. Wrong FORMAT_VERSION_HEADER",
      by simp [_check_and_remove_header, hp, h]⟩
  · by_cases hp : (FORMAT_VERSION_HEADER e).isPrefixOf data = true
    · exact ⟨Except.ok (data.drop 2),
        by simp [_check_and_remove_header, hp, FORMAT_VERSION_HEADER_length]⟩
    · exact ⟨Except.error "Could not parse encrypted block. Wrong FORMAT_VERSION_HEADER",
        by simp [_check_and_remove_header, hp, h]⟩
  · intro short hshort
    have hp : ¬ (FORMAT_VERSION_HEADER e).isPrefixOf short = true := by
      rw [List.isPrefixOf_iff_prefix]
      intro hpre2
      have hle := hpre2.length_le
      rw [FORMAT_VERSION_HEADER_length] at hle
      omega
    have h2 : ¬ 2 ≤ short.length := by omega
    simp [_check_and_remove_header, hp, h2]

/-- Witness for C9 at concrete inputs: `[1, 0, 42]` has its header
stripped, and the 1-byte input `[7]` hits the modelled panic. -/
theorem C9_check_and_remove_header_total_witness :
    _check_and_remove_header Endianness.little [1, 0, 42] = some (Except.ok [42])
    ∧ _check_and_remove_header Endianness.little [7] = none :=
  ⟨by
    have hres := (C9_check_and_remove_header_total Endianness.little [1, 0, 42]
      (by decide)).1 (by decide)
    simpa using hres,
   (C9_check_and_remove_header_total Endianness.little [1, 0, 42]
      (by decide)).2.2.2 [7] (by decide)⟩

/-- C3: `try_create(id, data)` returns `AlreadyExists` exactly when a
cache entry for the id is present or the base store already contains the
id; otherwise it returns `Created` and installs the data as a cache entry
in state `(Dirty, DoesntExistInBaseStore)`, leaving the base store and
all other cache entries unchanged. -/
theorem C3_try_create_spec (st : LockingBlockStoreState) (id : BlockId)
    (data : List Nat) :
    ((LockingBlockStore.try_create st id data).1
        = TryCreateResult.NotCreatedBecauseBlockIdAlreadyExists
      ↔ ((st.cache id).isSome = true ∨ (st.base id).isSome = true))
    ∧ (st.cache id = none → st.base id = none →
        (LockingBlockStore.try_create st id data).1 = TryCreateResult.SuccessfullyCreated
        ∧ ((LockingBlockStore.try_create st id data).2).cache id
            = some ⟨data, CacheEntryState.Dirty, BlockBaseStoreState.DoesntExistInBaseStore⟩
        ∧ ((LockingBlockStore.try_create st id data).2).base = st.base
        ∧ (∀ j, j ≠ id →
            ((LockingBlockStore.try_create st id data).2).cache j = st.cache j))
    ∧ (((st.cache id).isSome = true ∨ (st.base id).isSome = true) →
        (LockingBlockStore.try_create st id data).2 = st) := by
  refine ⟨?_, ?_, ?_⟩
  · cases hcache : st.cache id with
    | some entry => simp [LockingBlockStore.try_create, hcache]
    | none =>
      by_cases hbase : (st.base id).isSome
      · simp [LockingBlockStore.try_create, hcache, hbase]
      · simp [LockingBlockStore.try_create, hcache, hbase]
  · intro hc hb
    refine ⟨?_, ?_, ?_, ?_⟩
    · simp [LockingBlockStore.try_create, hc, hb]
    · simp [LockingBlockStore.try_create, hc, hb]
    · simp [LockingBlockStore.try_create, hc, hb]
    · intro j hj
      simp [LockingBlockStore.try_create, hc, hb, hj]
  · intro h
    cases hcache : st.cache id with
    | some entry => simp [LockingBlockStore.try_create, hcache]
    | none =>
      rcases h with h | h
      · rw [hcache] at h
        simp at h
      · simp [LockingBlockStore.try_create, hcache, h]

/-- Witness for C3 at a concrete input: creating block 5 in the empty
state succeeds and installs a dirty `DoesntExistInBaseStore` entry. -/
theorem C3_try_create_spec_witness :
    (LockingBlockStore.try_create ⟨fun _ => none, fun _ => none⟩ 5 [1, 2]).1
        = TryCreateResult.SuccessfullyCreated
    ∧ ((LockingBlockStore.try_create ⟨fun _ => none, fun _ => none⟩ 5 [1, 2]).2).cache 5
        = some ⟨[1, 2], CacheEntryState.Dirty, BlockBaseStoreState.DoesntExistInBaseStore⟩ :=
  ⟨((C3_try_create_spec ⟨fun _ => none, fun _ => none⟩ 5 [1, 2]).2.1 rfl rfl).1,
   ((C3_try_create_spec ⟨fun _ => none, fun _ => none⟩ 5 [1, 2]).2.1 rfl rfl).2.1⟩

/-- C4: `remove(id)` is a three-way case split. If the id is cached with
`base_state = ExistsInBaseStore`, the block is also deleted from the base
store; if cached with `base_state = DoesntExistInBaseStore`, only the
cache entry is dropped and the base store is untouched; if not cached,
the delete goes through to the base store. The result is
`SuccessfullyRemoved` exactly when the cache path or the base-store path
removed something — equivalently, when the id was cached or present in
the base store. -/
theorem C4_remove_cases (st : LockingBlockStoreState) (id : BlockId) :
    (∀ entry, st.cache id = some entry →
        entry.base_state = BlockBaseStoreState.ExistsInBaseStore →
        (LockingBlockStore.remove st id).1 = RemoveResult.SuccessfullyRemoved
        ∧ ((LockingBlockStore.remove st id).2).cache id = none
        ∧ ((LockingBlockStore.remove st id).2).base id = none
        ∧ (∀ j, j ≠ id →
            ((LockingBlockStore.remove st id).2).cache j = st.cache j
            ∧ ((LockingBlockStore.remove st id).2).base j = st.base j))
    ∧ (∀ entry, st.cache id = some entry →
        entry.base_state = BlockBaseStoreState.DoesntExistInBaseStore →
        (LockingBlockStore.remove st id).1 = RemoveResult.SuccessfullyRemoved
        ∧ ((LockingBlockStore.remove st id).2).cache id = none
        ∧ ((LockingBlockStore.remove st id).2).base = st.base)
    ∧ (st.cache id = none →
        ((LockingBlockStore.remove st id).2).cache = st.cache
        ∧ ((LockingBlockStore.remove st id).2).base id = none
        ∧ ((st.base id).isSome = true →
            (LockingBlockStore.remove st id).1 = RemoveResult.SuccessfullyRemoved)
        ∧ (st.base id = none →
            (LockingBlockStore.remove st id).1
              = RemoveResult.NotRemovedBecauseItDoesntExist))
    ∧ ((LockingBlockStore.remove st id).1 = RemoveResult.SuccessfullyRemoved
        ↔ ((st.cache id).isSome = true ∨ (st.base id).isSome = true)) := by
  refine ⟨?_, ?_, ?_, ?_⟩
  · intro entry hc hbs
    cases hb : st.base id with
    | some blk =>
      refine ⟨?_, ?_, ?_, ?_⟩
      · simp [LockingBlockStore.remove, LockingBlockStore.remove_details, hc]
      · simp [LockingBlockStore.remove, LockingBlockStore.remove_details, hc,
          hbs, BaseStore.remove, hb]
      · simp [LockingBlockStore.remove, LockingBlockStore.remove_details, hc,
          hbs, BaseStore.remove, hb]
      · intro j hj
        constructor
        · simp [LockingBlockStore.remove, LockingBlockStore.remove_details, hc,
            hbs, BaseStore.remove, hb, hj]
        · simp [LockingBlockStore.remove, LockingBlockStore.remove_details, hc,
            hbs, BaseStore.remove, hb, hj]
    | none =>
      refine ⟨?_, ?_, ?_, ?_⟩
      · simp [LockingBlockStore.remove, LockingBlockStore.remove_details, hc]
      · simp [LockingBlockStore.remove, LockingBlockStore.remove_details, hc,
          hbs, BaseStore.remove, hb]
      · simp [LockingBlockStore.remove, LockingBlockStore.remove_details, hc,
          hbs, BaseStore.remove, hb]
      · intro j hj
        constructor
        · simp [LockingBlockStore.remove, LockingBlockStore.remove_details, hc,
            hbs, BaseStore.remove, hb, hj]
        · simp [LockingBlockStore.remove, LockingBlockStore.remove_details, hc,
            hbs, BaseStore.remove, hb, hj]
  · intro entry hc hbs
    refine ⟨?_, ?_, ?_⟩
    · simp [LockingBlockStore.remove, LockingBlockStore.remove_details, hc]
    · simp [LockingBlockStore.remove, LockingBlockStore.remove_details, hc, hbs]
    · simp [LockingBlockStore.remove, LockingBlockStore.remove_details, hc, hbs]
  · intro hc
    cases hb : st.base id with
    | some blk =>
      refine ⟨?_, ?_, fun _ => ?_, fun hcontra => ?_⟩
      · simp [LockingBlockStore.remove, LockingBlockStore.remove_details, hc,
          BaseStore.remove, hb]
      · simp [LockingBlockStore.remove, LockingBlockStore.remove_details, hc,
          BaseStore.remove, hb]
      · simp [LockingBlockStore.remove, LockingBlockStore.remove_details, hc,
          BaseStore.remove, hb]
      · exact Option.noConfusion hcontra
    | none =>
      refine ⟨?_, ?_, fun hcontra => ?_, fun _ => ?_⟩
      · simp [LockingBlockStore.remove, LockingBlockStore.remove_details, hc,
          BaseStore.remove, hb]
      · simp [LockingBlockStore.remove, LockingBlockStore.remove_details, hc,
          BaseStore.remove, hb]
      · exact Bool.noConfusion hcontra
      · simp [LockingBlockStore.remove, LockingBlockStore.remove_details, hc,
          BaseStore.remove, hb]
  · cases hc : st.cache id with
    | some entry =>
      constructor
      · intro _
        simp [hc]
      · intro _
        simp [LockingBlockStore.remove, LockingBlockStore.remove_details, hc]
    | none =>
      cases hb : st.base id with
      | some blk =>
        constructor
        · intro _
          simp [hb]
        · intro _
          simp [LockingBlockStore.remove, LockingBlockStore.remove_details, hc,
            BaseStore.remove, hb]
      | none =>
        constructor
        · intro habs
          simp [LockingBlockStore.remove, LockingBlockStore.remove_details, hc,
            BaseStore.remove, hb] at habs
        · intro habs
          rcases habs with h | h <;> simp [hc, hb] at h

/-- Witness for C4 at a concrete input: removing an uncached block 3 that
exists in the base store deletes it there and reports success. -/
theorem C4_remove_cases_witness :
    ((LockingBlockStore.remove
        ⟨fun _ => none, BaseStore.store (fun _ => none) 3 [8]⟩ 3).2).base 3 = none
    ∧ (LockingBlockStore.remove
        ⟨fun _ => none, BaseStore.store (fun _ => none) 3 [8]⟩ 3).1
        = RemoveResult.SuccessfullyRemoved :=
  ⟨((C4_remove_cases ⟨fun _ => none, BaseStore.store (fun _ => none) 3 [8]⟩ 3).2.2.1
      rfl).2.1,
   ((C4_remove_cases ⟨fun _ => none, BaseStore.store (fun _ => none) 3 [8]⟩ 3).2.2.1
      rfl).2.2.1 rfl⟩

/-- C10: whenever a cache entry for the id exists at the time of the
call, `remove(id)` reports `SuccessfullyRemoved` — the cache path alone
decides success, even when the entry said `ExistsInBaseStore` and the
base store then reports the block absent. -/
theorem C10_remove_cached_always_removed (st : LockingBlockStoreState)
    (id : BlockId) (entry : CacheEntry) (h : st.cache id = some entry) :
    (LockingBlockStore.remove st id).1 = RemoveResult.SuccessfullyRemoved := by
  simp [LockingBlockStore.remove, LockingBlockStore.remove_details, h]

/-- Witness for C10 at a concrete input: block 0 cached as
`ExistsInBaseStore` while the base store is empty, so the base-store
remove reports not-found, yet the result is `SuccessfullyRemoved`. -/
theorem C10_remove_cached_always_removed_witness :
    (LockingBlockStore.remove
      ⟨fun i => if i = 0 then
          some ⟨[1], CacheEntryState.Dirty, BlockBaseStoreState.ExistsInBaseStore⟩
        else none,
       fun _ => none⟩ 0).1 = RemoveResult.SuccessfullyRemoved :=
  C10_remove_cached_always_removed _ 0
    ⟨[1], CacheEntryState.Dirty, BlockBaseStoreState.ExistsInBaseStore⟩ rfl

/-- C7: `all_blocks()` yields the cache-key snapshot first, then the base
store's stream with ids already in that snapshot filtered out; when the
snapshot and the base stream are each duplicate-free (they are key sets of
a map and of a store), no id appears more than once in the emitted
sequence. -/
theorem C7_all_blocks_dedup (ck bb : List BlockId) (h1 : ck.Nodup)
    (h2 : bb.Nodup) :
    LockingBlockStore.all_blocks ck bb
        = ck ++ bb.filter (fun b => !(ck.contains b))
    ∧ (LockingBlockStore.all_blocks ck bb).Nodup := by
  refine ⟨rfl, ?_⟩
  unfold LockingBlockStore.all_blocks
  refine List.Nodup.append h1 (h2.filter _) ?_
  intro a ha hb
  rcases List.mem_filter.1 hb with ⟨-, hpa⟩
  simp at hpa
  exact hpa ha

/-- Witness for C7 at a concrete input: cache snapshot `[1, 2]`, base
stream `[2, 3]`; the duplicate 2 is filtered out. -/
theorem C7_all_blocks_dedup_witness :
    LockingBlockStore.all_blocks [1, 2] [2, 3]
        = [1, 2] ++ List.filter (fun b => !(List.contains [1, 2] b)) [2, 3]
    ∧ (LockingBlockStore.all_blocks [1, 2] [2, 3]).Nodup :=
  C7_all_blocks_dedup [1, 2] [2, 3] (by decide) (by decide)

/-- C8: the encrypted layer delegates `num_blocks`, `all_blocks` and
`remove` verbatim to the underlying store — it changes only block
contents, never the set, count or identity of blocks. -/
theorem C8_encrypted_frame {σ : Type}
    (num_blocks_impl : σ → Except String Nat)
    (all_blocks_impl : σ → Except String (List BlockId))
    (remove_impl : σ → BlockId → Except String (RemoveResult × σ))
    (s : σ) (id : BlockId) :
    EncryptedBlockStore.num_blocks num_blocks_impl s = num_blocks_impl s
    ∧ EncryptedBlockStore.all_blocks all_blocks_impl s = all_blocks_impl s
    ∧ EncryptedBlockStore.remove remove_impl s id = remove_impl s id :=
  ⟨rfl, rfl, rfl⟩

end Cryfs
